import Mathlib

/-!
# Verification of the Bluesky follow-cycle agent (`main.py`)

Shallow embedding of the follow-cycle core of the bot:

* the persistent follow ledger (sqlite table `followed_users`),
* the candidate filter `check_criteria`,
* the retry-wrapped remote calls `follow_user` and `get_suggestions`
  (tenacity `@retry` with `stop_after_attempt`),
* the cycle driver `follow_cycle` with its daily quota, quota sleep and
  top-level exception handler.

Remote behaviour (success / rate-limit error / other error per attempt) and
wall-clock timestamps are passed in explicitly as environment data.
Timestamps are seconds as natural numbers.
-/

/-! ## Configuration constants (module constants in `main.py`) -/

def DAILY_FOLLOW_LIMIT : Nat := 20

def UNFOLLOW_AFTER_DAYS : Nat := 5

/-- Python's `'term' in s` substring test on explicit character lists:
`t` occurs contiguously in `h`. -/
def isSubstr (t : List Char) : List Char → Bool
  | [] => t.isEmpty
  | c :: h => t.isPrefixOf (c :: h) || isSubstr t h

/-- `str.lower()` (character-wise; the configured terms are pure ASCII). -/
def pyLower (s : String) : String := String.mk (s.data.map Char.toLower)

def REQUIRED_TERMS : List String := ["bsky", "sky"]

/-! ## Data model: the `followed_users` table -/

/-- One row of the sqlite table `followed_users`
(`did TEXT PRIMARY KEY, handle TEXT, followed_at TIMESTAMP, unfollowed BOOLEAN DEFAULT 0`). -/
structure FollowRecord where
  did : String
  handle : String
  followedAt : Nat
  unfollowed : Bool
deriving DecidableEq, Repr

/-- The ledger: the rows of `followed_users`, in insertion order. -/
abbrev Ledger := List FollowRecord

/-- A suggested actor as consumed by the bot: its `did` and `handle`. -/
structure User where
  did : String
  handle : String
deriving DecidableEq, Repr

/-- `INSERT INTO followed_users (did, handle, followed_at) VALUES (?, ?, ?)`:
`did` is the primary key, so inserting an existing `did` raises
`IntegrityError` (modelled as `none`); otherwise the row is appended. -/
def insertFollow (db : Ledger) (r : FollowRecord) : Option Ledger :=
  if db.any (fun x => x.did == r.did) then none else some (db ++ [r])

/-- `SELECT ... WHERE did = ? AND unfollowed = 0` finds a row:
there is an active (not yet unfollowed) record for `d`. -/
def isActive (db : Ledger) (d : String) : Bool :=
  db.any (fun r => r.did == d && r.unfollowed == false)

/-! ## Candidate filter: `BlueskyBot.check_criteria` (main.py lines 187-196) -/

/-- `check_criteria(self, user)`: reject unless some required term occurs in
`user.handle.lower()`; then eligible iff the query
`SELECT did FROM followed_users WHERE did = ? AND unfollowed = 0`
returns no row (`fetchone() is None`). -/
def check_criteria (db : Ledger) (u : User) : Bool :=
  if !(REQUIRED_TERMS.any (fun t => isSubstr t.data (pyLower u.handle).data)) then
    false
  else
    (db.find? (fun r => r.did == u.did && r.unfollowed == false)).isNone

/-! ## Remote calls with tenacity retry -/

/-- Outcome of one remote `client.follow(did)` attempt, supplied by the
environment: success, `exceptions.RateLimitError`, or any other exception. -/
inductive RemoteOutcome where
  | success
  | rateLimit
  | otherError
deriving DecidableEq, Repr

/-- Result of the retry-wrapped `follow_user`: either the function returned a
boolean (ledger possibly extended), or the retries were exhausted and an
exception propagates to the caller. -/
inductive FollowResult where
  | returned (b : Bool) (db : Ledger)
  | raisedError (db : Ledger)
deriving DecidableEq, Repr

/-- One execution of the body of `follow_user` (main.py lines 199-212):
`client.follow` first; on its success the row is inserted and committed and
`True` returned (a duplicate-key `IntegrityError` on the insert is caught by
the generic `except` and yields `False`); a `RateLimitError` is re-raised
(`none`, visible to tenacity); any other exception yields `return False`. -/
def follow_attempt (db : Ledger) (u : User) (now : Nat) :
    RemoteOutcome → Option (Bool × Ledger)
  | .rateLimit => none
  | .otherError => some (false, db)
  | .success =>
    match insertFollow db { did := u.did, handle := u.handle,
                            followedAt := now, unfollowed := false } with
    | some db' => some (true, db')
    | none => some (false, db)

/-- `@retry(stop=stop_after_attempt(2), ...) def follow_user(self, user)`:
the body runs; only a raised exception (here: `RateLimitError`) triggers the
second attempt; if the second attempt also raises, the failure propagates to
the caller. `o1`, `o2` are the remote outcomes of the two possible attempts. -/
def follow_user (db : Ledger) (u : User) (now : Nat)
    (o1 o2 : RemoteOutcome) : FollowResult :=
  match follow_attempt db u now o1 with
  | some (b, db') => .returned b db'
  | none =>
    match follow_attempt db u now o2 with
    | some (b, db') => .returned b db'
    | none => .raisedError db

/-- The ledger as left by a `follow_user` call. -/
def FollowResult.dbOf : FollowResult → Ledger
  | .returned _ db => db
  | .raisedError db => db

/-- Outcome of one remote `client.get_actor_suggestions()` attempt. -/
inductive FetchOutcome where
  | success (batch : List User)
  | rateLimit
  | otherError
deriving DecidableEq, Repr

/-- The failure kinds that `get_suggestions` can propagate. -/
inductive FetchErr where
  | rateLimit
  | other
deriving DecidableEq, Repr

/-- One execution of the body of `get_suggestions` (main.py lines 176-185):
both the `RateLimitError` handler and the generic handler re-raise, so every
failure is visible to tenacity. -/
def fetch_attempt : FetchOutcome → Except FetchErr (List User)
  | .success b => .ok b
  | .rateLimit => .error .rateLimit
  | .otherError => .error .other

/-- `@retry(stop=stop_after_attempt(3), ...) def get_suggestions(self)`:
up to three attempts; after the third failure the error propagates. -/
def get_suggestions (o1 o2 o3 : FetchOutcome) : Except FetchErr (List User) :=
  match fetch_attempt o1 with
  | .ok b => .ok b
  | .error _ =>
    match fetch_attempt o2 with
    | .ok b => .ok b
    | .error _ => fetch_attempt o3

/-! ## The per-batch follow loop (main.py lines 246-255) -/

/-- Result of the `for user in suggestions:` loop: the ledger, the follow
counter, and the dids for which a remote follow call was issued
(`follow_user` entered ⇒ `client.follow` called).  `raised` means an
exception escaped the loop (follow retries exhausted). -/
inductive BatchResult where
  | completed (db : Ledger) (count : Nat) (calls : List String)
  | raised (db : Ledger) (count : Nat) (calls : List String)
deriving DecidableEq, Repr

/-- Record one more issued remote follow call in a batch result. -/
def addCall (d : String) : BatchResult → BatchResult
  | .completed db c calls => .completed db c (d :: calls)
  | .raised db c calls => .raised db c (d :: calls)

def BatchResult.dbOf : BatchResult → Ledger
  | .completed db _ _ => db
  | .raised db _ _ => db

def BatchResult.countOf : BatchResult → Nat
  | .completed _ c _ => c
  | .raised _ c _ => c

def BatchResult.callsOf : BatchResult → List String
  | .completed _ _ calls => calls
  | .raised _ _ calls => calls

/-- The loop body of `follow_cycle`'s `for user in suggestions:`:
if `check_criteria(user)` then call `follow_user(user)` (one pair of remote
outcomes consumed per call); on `True` the counter is incremented (then the
randomized sleep, irrelevant to state); after the eligible candidate is
processed, `if follow_count >= DAILY_FOLLOW_LIMIT: break`. -/
def processBatch (now : Nat) :
    List User → List (RemoteOutcome × RemoteOutcome) → Ledger → Nat → BatchResult
  | [], _, db, c => .completed db c []
  | u :: rest, os, db, c =>
    if check_criteria db u then
      match follow_user db u now (os.headD (.otherError, .otherError)).1
            (os.headD (.otherError, .otherError)).2 with
      | .returned true db' =>
        if DAILY_FOLLOW_LIMIT ≤ c + 1 then .completed db' (c + 1) [u.did]
        else addCall u.did (processBatch now rest os.tail db' (c + 1))
      | .returned false db' =>
        if DAILY_FOLLOW_LIMIT ≤ c then .completed db' c [u.did]
        else addCall u.did (processBatch now rest os.tail db' c)
      | .raisedError db' => .raised db' c [u.did]
    else processBatch now rest os db c

/-! ## The unfollow sweep -/

/-- Modelled from the spec: `check_unfollows` is called by `follow_cycle`
(main.py line 235) but its definition is not among the provided sources.
Per spec §4.4 the sweeper scans for active records with
`followedAt ≤ now - cooldown`, issues a remote unfollow for each (outcome
given by `unfollowOk`), marks the record unfollowed on success, and on
failure logs and leaves the record active; per-record failures are absorbed
inside the sweeper, so the sweep itself completes normally. -/
def check_unfollows (db : Ledger) (now cooldown : Nat)
    (unfollowOk : String → Bool) : Ledger :=
  db.map (fun r =>
    if r.unfollowed == false && r.followedAt + cooldown ≤ now && unfollowOk r.did
    then { r with unfollowed := true } else r)

/-! ## The cycle driver: `BlueskyBot.follow_cycle` (main.py lines 229-268) -/

/-- The process-local state of `follow_cycle`: `follow_count`, `start_time`,
plus the ledger the iteration mutates. -/
structure DriverState where
  follow_count : Nat
  start_time : Nat
  db : Ledger
deriving DecidableEq, Repr

/-- Environment of one iteration of the `while True:` loop: the current
time, the per-record unfollow outcomes for the sweep, the three possible
suggestion-fetch outcomes, the shuffle performed by `random.shuffle`, the
per-follow-call remote outcomes, and the time observed after the quota
sleep. -/
structure Env where
  now : Nat
  unfollowOk : String → Bool
  fetch1 : FetchOutcome
  fetch2 : FetchOutcome
  fetch3 : FetchOutcome
  shuffle : List User → List User
  oracles : List (RemoteOutcome × RemoteOutcome)
  nowAfterQuotaSleep : Nat

/-- Result of the `try:` body of one iteration: it either finished normally
(possibly after an internal sleep) or an exception escaped; in both cases
the state reflects all mutations made up to that point. -/
inductive IterResult where
  | ok (s : DriverState)
  | exn (s : DriverState)
deriving DecidableEq, Repr

def IterResult.stateOf : IterResult → DriverState
  | .ok s => s
  | .exn s => s

/-- The steps of one iteration actually reached, in order:
the sweep, the suggestion fetch (only entered when
`follow_count < DAILY_FOLLOW_LIMIT`), the filter/follow loop, the
empty-batch 1-hour sleep, and the quota sleep branch. -/
inductive Phase where
  | sweeping
  | fetching
  | following
  | emptyBatchSleep
  | quotaSleep
deriving DecidableEq, Repr

/-- One execution of the `try:` body of `follow_cycle`'s loop
(main.py lines 234-265), returning the resulting state and the phases
reached.  `check_unfollows` runs first; then,
if `follow_count < DAILY_FOLLOW_LIMIT`, suggestions are fetched (a fetch
failure after 3 attempts propagates), an empty batch causes a 1-hour sleep
and `continue`, otherwise the shuffled batch is processed (a follow failure
after 2 attempts propagates); in the quota branch
`remaining = (start_time + 24h - now).total_seconds()` is computed and
`time.sleep(remaining)` raises `ValueError` when `remaining` is negative,
skipping the `follow_count = 0; start_time = datetime.now()` reset. -/
def iteration_body (s : DriverState) (e : Env) : IterResult × List Phase :=
  let s1 : DriverState :=
    { s with db := check_unfollows s.db e.now (UNFOLLOW_AFTER_DAYS * 86400) e.unfollowOk }
  if s1.follow_count < DAILY_FOLLOW_LIMIT then
    match get_suggestions e.fetch1 e.fetch2 e.fetch3 with
    | .error _ => (.exn s1, [.sweeping, .fetching])
    | .ok batch =>
      if batch.isEmpty then (.ok s1, [.sweeping, .fetching, .emptyBatchSleep])
      else
        match processBatch e.now (e.shuffle batch) e.oracles s1.db s1.follow_count with
        | .completed db2 c _ =>
          (.ok { follow_count := c, start_time := s1.start_time, db := db2 },
           [.sweeping, .fetching, .following])
        | .raised db2 c _ =>
          (.exn { follow_count := c, start_time := s1.start_time, db := db2 },
           [.sweeping, .fetching, .following])
  else
    if (s1.start_time : Int) + 86400 - (e.now : Int) < 0 then
      (.exn s1, [.sweeping, .quotaSleep])
    else
      (.ok { follow_count := 0, start_time := e.nowAfterQuotaSleep, db := s1.db },
       [.sweeping, .quotaSleep])

/-- One full iteration of the `while True:` loop including the driver-level
handler `except Exception: ... time.sleep(300)` (main.py lines 266-268):
a normal body yields the next state directly; an escaped exception is caught
and followed by a fixed 300-second pause (`some 300`), and the loop
continues from the state as mutated so far. -/
def follow_cycle_step (s : DriverState) (e : Env) : DriverState × Option Nat :=
  match (iteration_body s e).1 with
  | .ok s' => (s', none)
  | .exn s' => (s', some 300)

/-- `n` iterations of the `while True:` loop under the environment
sequence `envs`; the loop always has a next state. -/
def follow_cycle_run (s : DriverState) (envs : Nat → Env) : Nat → DriverState
  | 0 => s
  | n + 1 => (follow_cycle_step (follow_cycle_run s envs n) (envs n)).1

/-- A concrete benign environment at time `n`, for concrete evaluations. -/
def envAt (n : Nat) : Env :=
  { now := n, unfollowOk := fun _ => true, fetch1 := .success [],
    fetch2 := .success [], fetch3 := .success [], shuffle := id,
    oracles := [], nowAfterQuotaSleep := n + 1 }

/-- A ledger whose only record for `did:plc:alice` is marked unfollowed. -/
def dbAlice : Ledger :=
  [{ did := "did:plc:alice", handle := "alice.bsky", followedAt := 0, unfollowed := true }]

/-- The account of `dbAlice`'s record, offered again as a suggestion. -/
def uAlice : User := { did := "did:plc:alice", handle := "alice.bsky" }

/-- Spec-side definition for the refinement claim: the handle-relevance test
with the single term `"sky"` (the second, spec-worded definition to be
compared with the configured two-term test). -/
def skyOnlyTest (h : String) : Bool := isSubstr "sky".data (pyLower h).data

/-! ## Helper lemmas -/

theorem isSubstr_of_isPrefixOf (t h : List Char) (hp : t.isPrefixOf h = true) :
    isSubstr t h = true := by
  cases h with
  | nil =>
    cases t with
    | nil => rfl
    | cons c t' => simp [List.isPrefixOf] at hp
  | cons c h' => simp [isSubstr, hp]

theorem isSubstr_tail (c : Char) (t h : List Char)
    (hs : isSubstr (c :: t) h = true) : isSubstr t h = true := by
  induction h with
  | nil => simp [isSubstr, List.isEmpty] at hs
  | cons a h' ih =>
    rw [isSubstr, Bool.or_eq_true] at hs
    rcases hs with hp | hrec
    · rw [List.isPrefixOf, Bool.and_eq_true] at hp
      have ht : isSubstr t h' = true := isSubstr_of_isPrefixOf t h' hp.2
      rw [isSubstr, ht, Bool.or_true]
    · rw [isSubstr, ih hrec, Bool.or_true]

theorem isSubstr_bsky_imp_sky (l : List Char)
    (hb : isSubstr "bsky".data l = true) : isSubstr "sky".data l = true := by
  have he : "bsky".data = 'b' :: "sky".data := rfl
  exact isSubstr_tail 'b' "sky".data l (he ▸ hb)

/-- C10: because `"sky"` is a substring of `"bsky"`, the handle-relevance
test over `REQUIRED_TERMS = ["bsky", "sky"]` is extensionally equal to the
single-term test with `"sky"`: for every handle string `h`, some configured
term occurs in the lower-cased handle iff `"sky"` does. -/
theorem required_terms_equiv_sky_only (h : String) :
    (∃ t ∈ REQUIRED_TERMS, isSubstr t.data (pyLower h).data = true) ↔
      skyOnlyTest h = true := by
  constructor
  · rintro ⟨t, ht, hsub⟩
    simp only [REQUIRED_TERMS, List.mem_cons, List.not_mem_nil, or_false] at ht
    rcases ht with rfl | rfl
    · exact isSubstr_bsky_imp_sky _ hsub
    · exact hsub
  · intro hs
    exact ⟨"sky", by simp [REQUIRED_TERMS], hs⟩

theorem check_criteria_iff (db : Ledger) (u : User) :
    check_criteria db u = true ↔
      ((∃ t ∈ REQUIRED_TERMS, isSubstr t.data (pyLower u.handle).data = true) ∧
       ∀ r ∈ db, r.did = u.did → r.unfollowed = true) := by
  by_cases hm : REQUIRED_TERMS.any (fun t => isSubstr t.data (pyLower u.handle).data) = true
  · rw [check_criteria, if_neg (by simp [hm]), Option.isNone_iff_eq_none, List.find?_eq_none]
    rw [List.any_eq_true] at hm
    constructor
    · intro hf
      refine ⟨hm, fun r hr hd => ?_⟩
      have h2 := hf r hr
      simp only [Bool.and_eq_true, beq_iff_eq, not_and] at h2
      have h3 := h2 hd
      simpa using h3
    · rintro ⟨-, hall⟩ r hr
      simp only [Bool.and_eq_true, beq_iff_eq, not_and]
      intro hd
      simp [hall r hr hd]
  · have hf : REQUIRED_TERMS.any (fun t => isSubstr t.data (pyLower u.handle).data) = false := by
      cases hq : REQUIRED_TERMS.any (fun t => isSubstr t.data (pyLower u.handle).data)
      · rfl
      · exact absurd hq hm
    rw [check_criteria, if_pos (by simp [hf])]
    constructor
    · intro h; exact absurd h (by simp)
    · rintro ⟨hex, -⟩
      exact absurd (List.any_eq_true.mpr hex) hm

theorem check_criteria_no_term (db : Ledger) (u : User)
    (hm : REQUIRED_TERMS.any (fun t => isSubstr t.data (pyLower u.handle).data) = false) :
    check_criteria db u = false := by
  rw [check_criteria, if_pos (by simp [hm])]

/-- C4: the candidate filter accepts exactly when the lower-cased handle
contains at least one required substring (defaults `"bsky"`, `"sky"`) and no
active (`unfollowed = false`) ledger record exists for the candidate's did;
in particular it rejects handle `"randomuser123"` for any ledger and did,
and accepts `"sky-fan.bsky"` with no ledger entry. -/
theorem check_criteria_correct :
    (∀ (db : Ledger) (u : User),
      check_criteria db u = true ↔
        ((∃ t ∈ REQUIRED_TERMS, isSubstr t.data (pyLower u.handle).data = true) ∧
         ∀ r ∈ db, r.did = u.did → r.unfollowed = true)) ∧
    (∀ (db : Ledger) (d : String),
      check_criteria db { did := d, handle := "randomuser123" } = false) ∧
    check_criteria [] { did := "did:example:1", handle := "sky-fan.bsky" } = true := by
  refine ⟨check_criteria_iff, fun db d => check_criteria_no_term db _ ?_, by decide⟩
  show REQUIRED_TERMS.any (fun t => isSubstr t.data (pyLower "randomuser123").data) = false
  decide


theorem follow_user_db_cases (db : Ledger) (u : User) (now : Nat)
    (o1 o2 : RemoteOutcome) :
    follow_user db u now o1 o2
        = .returned true (db ++ [{ did := u.did, handle := u.handle,
                                   followedAt := now, unfollowed := false }]) ∨
    follow_user db u now o1 o2 = .returned false db ∨
    follow_user db u now o1 o2 = .raisedError db := by
  have hins : ∀ (d : Ledger),
      follow_attempt d u now .success
        = some (true, d ++ [{ did := u.did, handle := u.handle,
                              followedAt := now, unfollowed := false }]) ∨
      follow_attempt d u now .success = some (false, d) := by
    intro d
    rw [follow_attempt, insertFollow]
    by_cases hd : d.any (fun x => x.did ==
        ({ did := u.did, handle := u.handle,
           followedAt := now, unfollowed := false } : FollowRecord).did)
    · rw [if_pos hd]; right; rfl
    · rw [if_neg hd]; left; rfl
  cases o1 with
  | success =>
    rcases hins db with h | h <;> simp [follow_user, h]
  | otherError =>
    right; left; simp [follow_user, follow_attempt]
  | rateLimit =>
    cases o2 with
    | success =>
      have h1 : follow_attempt db u now .rateLimit = none := rfl
      rcases hins db with h | h <;> simp [follow_user, h1, h]
    | otherError =>
      right; left; simp [follow_user, follow_attempt]
    | rateLimit =>
      right; right; simp [follow_user, follow_attempt]

/-- C5: a FollowRecord is written (with its `followedAt` timestamp) only
after the remote follow call succeeded, never before: whenever no attempt's
remote call returns success, `follow_user` leaves the ledger unchanged and
never returns `True`. -/
theorem no_speculative_write (db : Ledger) (u : User) (now : Nat)
    (o1 o2 : RemoteOutcome) (h1 : o1 ≠ RemoteOutcome.success)
    (h2 : o1 = RemoteOutcome.rateLimit → o2 ≠ RemoteOutcome.success) :
    (follow_user db u now o1 o2).dbOf = db ∧
    ∀ db' : Ledger, follow_user db u now o1 o2 ≠ .returned true db' := by
  cases o1 with
  | success => exact absurd rfl h1
  | otherError =>
    have h : follow_user db u now .otherError o2 = .returned false db := rfl
    rw [h]; exact ⟨rfl, fun db' hne => by simp at hne⟩
  | rateLimit =>
    cases o2 with
    | success => exact absurd rfl (h2 rfl)
    | otherError =>
      have h : follow_user db u now .rateLimit .otherError = .returned false db := rfl
      rw [h]; exact ⟨rfl, fun db' hne => by simp at hne⟩
    | rateLimit =>
      have h : follow_user db u now .rateLimit .rateLimit = .raisedError db := rfl
      rw [h]; exact ⟨rfl, fun db' hne => by simp at hne⟩

theorem no_speculative_write_witness :
    (RemoteOutcome.otherError ≠ RemoteOutcome.success) ∧
    (follow_user [] { did := "d5", handle := "w.bsky" } 9
        .otherError .otherError).dbOf = [] :=
  ⟨by decide,
   (no_speculative_write [] { did := "d5", handle := "w.bsky" } 9
      .otherError .otherError (by decide) (by intro h; cases h)).1⟩

theorem any_did_false_of_all_ne (db : Ledger) (d : String)
    (h : db.all (fun r => r.did != d) = true) :
    db.any (fun x => x.did == d) = false := by
  rw [List.all_eq_true] at h
  cases hq : db.any (fun x => x.did == d)
  · rfl
  · rw [List.any_eq_true] at hq
    obtain ⟨x, hx, hxd⟩ := hq
    have := h x hx
    simp only [bne_iff_ne, ne_eq] at this
    simp only [beq_iff_eq] at hxd
    exact absurd hxd this

/-- C6: under the 2-attempt follow retry policy, a rate-limit failure on
attempt 1 followed by success on attempt 2 yields exactly one ledger insert
for the account; rate-limit failures on both attempts yield zero inserts
with the failure surfaced past the wrapper, after which the cycle driver
catches it and continues (300-second pause) rather than crashing. -/
theorem follow_retry_ledger_effect (db : Ledger) (u : User) (now : Nat)
    (h : db.all (fun r => r.did != u.did) = true) :
    follow_user db u now .rateLimit .success
      = .returned true (db ++ [{ did := u.did, handle := u.handle,
                                 followedAt := now, unfollowed := false }]) ∧
    follow_user db u now .rateLimit .rateLimit = .raisedError db ∧
    (∀ (s : DriverState) (e : Env) (s' : DriverState),
      (iteration_body s e).1 = .exn s' → follow_cycle_step s e = (s', some 300)) := by
  refine ⟨?_, rfl, ?_⟩
  · have h1 : follow_attempt db u now .rateLimit = none := rfl
    have h2 : follow_attempt db u now .success
        = some (true, db ++ [{ did := u.did, handle := u.handle,
                               followedAt := now, unfollowed := false }]) := by
      rw [follow_attempt, insertFollow, if_neg]
      simp only [any_did_false_of_all_ne db u.did h, Bool.false_eq_true,
        not_false_eq_true]
    simp [follow_user, h1, h2]
  · intro s e s' hexn
    rw [follow_cycle_step, hexn]

theorem follow_retry_ledger_effect_witness :
    (([] : Ledger).all (fun r => r.did != "d6") = true) ∧
    follow_user [] { did := "d6", handle := "z.bsky" } 3 .rateLimit .success
      = .returned true [{ did := "d6", handle := "z.bsky",
                          followedAt := 3, unfollowed := false }] :=
  ⟨by decide,
   (follow_retry_ledger_effect [] { did := "d6", handle := "z.bsky" } 3 (by decide)).1⟩

/-- C7 counterexample: a non-rate-limit remote failure on follow attempt 1
is NOT retried (the second attempt, which would succeed, is never made) and
does not propagate: `follow_user` silently returns the non-error result
`False`, contradicting the claim that every non-rate-limit failure is
retried per the policy and then propagates. -/
theorem follow_other_error_not_retried :
    follow_user [] { did := "d7", handle := "c.bsky" } 0 .otherError .success
      = .returned false [] := by decide

/-- C7 amended: for fetch-suggestions, every run in which no attempt
succeeds (up to 3 attempts) propagates an error out of the wrapper; for
follow, only rate-limit failures are retried (up to 2 attempts) and
propagate once exhausted, while a non-rate-limit follow failure is caught
inside the attempt and surfaced as a `False` return without retry or
propagation. -/
theorem retry_propagation (o1 o2 o3 : FetchOutcome)
    (h1 : ∀ b, o1 ≠ FetchOutcome.success b) (h2 : ∀ b, o2 ≠ FetchOutcome.success b)
    (h3 : ∀ b, o3 ≠ FetchOutcome.success b) :
    (∃ err, get_suggestions o1 o2 o3 = .error err) ∧
    (∀ (db : Ledger) (u : User) (now : Nat) (o : RemoteOutcome),
        follow_user db u now .otherError o = .returned false db) ∧
    (∀ (db : Ledger) (u : User) (now : Nat),
        follow_user db u now .rateLimit .rateLimit = .raisedError db) := by
  refine ⟨?_, fun db u now o => rfl, fun db u now => rfl⟩
  cases o1 with
  | success b => exact absurd rfl (h1 b)
  | rateLimit =>
    cases o2 with
    | success b => exact absurd rfl (h2 b)
    | rateLimit =>
      cases o3 with
      | success b => exact absurd rfl (h3 b)
      | rateLimit => exact ⟨.rateLimit, rfl⟩
      | otherError => exact ⟨.other, rfl⟩
    | otherError =>
      cases o3 with
      | success b => exact absurd rfl (h3 b)
      | rateLimit => exact ⟨.rateLimit, rfl⟩
      | otherError => exact ⟨.other, rfl⟩
  | otherError =>
    cases o2 with
    | success b => exact absurd rfl (h2 b)
    | rateLimit =>
      cases o3 with
      | success b => exact absurd rfl (h3 b)
      | rateLimit => exact ⟨.rateLimit, rfl⟩
      | otherError => exact ⟨.other, rfl⟩
    | otherError =>
      cases o3 with
      | success b => exact absurd rfl (h3 b)
      | rateLimit => exact ⟨.rateLimit, rfl⟩
      | otherError => exact ⟨.other, rfl⟩

theorem retry_propagation_witness :
    (∃ err, get_suggestions .otherError .otherError .otherError = .error err) :=
  (retry_propagation .otherError .otherError .otherError
    (fun b h => by cases h) (fun b h => by cases h) (fun b h => by cases h)).1

theorem addCall_dbOf (d : String) (r : BatchResult) :
    (addCall d r).dbOf = r.dbOf := by cases r <;> rfl

theorem addCall_countOf (d : String) (r : BatchResult) :
    (addCall d r).countOf = r.countOf := by cases r <;> rfl

theorem mem_addCall_callsOf (d d' : String) (r : BatchResult) :
    d ∈ (addCall d' r).callsOf ↔ d = d' ∨ d ∈ r.callsOf := by
  cases r <;> simp [addCall, BatchResult.callsOf]

theorem processBatch_bound (now : Nat) :
    ∀ (users : List User) (os : List (RemoteOutcome × RemoteOutcome))
      (db : Ledger) (c : Nat), c < DAILY_FOLLOW_LIMIT →
      c ≤ (processBatch now users os db c).countOf ∧
      (processBatch now users os db c).countOf ≤ DAILY_FOLLOW_LIMIT ∧
      (processBatch now users os db c).dbOf.length
        = db.length + ((processBatch now users os db c).countOf - c)
  | [], os, db, c, hc => by
    simp only [processBatch, BatchResult.countOf, BatchResult.dbOf]
    omega
  | u :: rest, os, db, c, hc => by
    rw [processBatch]
    by_cases hcc : check_criteria db u = true
    · rw [if_pos hcc]
      rcases follow_user_db_cases db u now
          (os.headD (.otherError, .otherError)).1
          (os.headD (.otherError, .otherError)).2 with hf | hf | hf <;>
        simp only [hf]
      · by_cases hl : DAILY_FOLLOW_LIMIT ≤ c + 1
        · rw [if_pos hl]
          simp only [BatchResult.countOf, BatchResult.dbOf, List.length_append,
            List.length_singleton]
          omega
        · rw [if_neg hl]
          have hc' : c + 1 < DAILY_FOLLOW_LIMIT := by omega
          have ih := processBatch_bound now rest os.tail
            (db ++ [{ did := u.did, handle := u.handle,
                      followedAt := now, unfollowed := false }]) (c + 1) hc'
          rw [addCall_countOf, addCall_dbOf]
          simp only [List.length_append, List.length_singleton] at ih
          omega
      · rw [if_neg (by omega : ¬ DAILY_FOLLOW_LIMIT ≤ c)]
        have ih := processBatch_bound now rest os.tail db c hc
        rw [addCall_countOf, addCall_dbOf]
        omega
      · simp only [BatchResult.countOf, BatchResult.dbOf]
        omega
    · rw [if_neg hcc]
      exact processBatch_bound now rest os db c hc

theorem check_unfollows_length (db : Ledger) (now cd : Nat) (ok : String → Bool) :
    (check_unfollows db now cd ok).length = db.length := by
  simp [check_unfollows]

/-- C1: within one cycle window the successful follows recorded in the
ledger never exceed the daily limit: if an iteration starts with
`follow_count ≤ DAILY_FOLLOW_LIMIT` (as every window does, starting from 0),
the resulting count still respects the limit, and the ledger grows by
exactly the number of counted successful follows — so the
`(dailyLimit+1)`-th eligible candidate is never followed before a reset. -/
theorem quota_never_exceeded (s : DriverState) (e : Env)
    (h : s.follow_count ≤ DAILY_FOLLOW_LIMIT) :
    ((iteration_body s e).1.stateOf).follow_count ≤ DAILY_FOLLOW_LIMIT ∧
    ((iteration_body s e).1.stateOf).db.length
      = s.db.length + (((iteration_body s e).1.stateOf).follow_count - s.follow_count) := by
  have hlen := check_unfollows_length s.db e.now (UNFOLLOW_AFTER_DAYS * 86400) e.unfollowOk
  simp only [iteration_body]
  split
  · rename_i hlt
    split
    · rename_i err herr
      simp only [IterResult.stateOf]
      exact ⟨h, by omega⟩
    · rename_i batch hfetch
      split
      · simp only [IterResult.stateOf]
        exact ⟨h, by omega⟩
      · split
        · rename_i db2 c calls hpb
          have hb := processBatch_bound e.now (e.shuffle batch) e.oracles
            (check_unfollows s.db e.now (UNFOLLOW_AFTER_DAYS * 86400) e.unfollowOk)
            s.follow_count (by simpa using hlt)
          rw [hpb] at hb
          simp only [BatchResult.countOf, BatchResult.dbOf] at hb
          simp only [IterResult.stateOf]
          exact ⟨hb.2.1, by omega⟩
        · rename_i db2 c calls hpb
          have hb := processBatch_bound e.now (e.shuffle batch) e.oracles
            (check_unfollows s.db e.now (UNFOLLOW_AFTER_DAYS * 86400) e.unfollowOk)
            s.follow_count (by simpa using hlt)
          rw [hpb] at hb
          simp only [BatchResult.countOf, BatchResult.dbOf] at hb
          simp only [IterResult.stateOf]
          exact ⟨hb.2.1, by omega⟩
  · rename_i hge
    split
    · rename_i hneg
      simp only [IterResult.stateOf]
      exact ⟨h, by omega⟩
    · rename_i hpos
      simp only [IterResult.stateOf]
      exact ⟨by omega, by omega⟩


/-- C2 counterexample: in an iteration that begins with the quota exhausted
(`follow_count = 20`), the sweep completes but the suggestion-fetch phase is
NOT reached — the quota-sleep branch follows the sweep instead — refuting
"for every iteration that begins, the suggestion-fetch phase is reached
after the sweep". -/
theorem sweep_to_fetch_counterexample :
    Phase.fetching ∉ (iteration_body ⟨20, 0, []⟩ (envAt 50000)).2 ∧
    (iteration_body ⟨20, 0, []⟩ (envAt 50000)).2.head? = some Phase.sweeping := by
  constructor <;> decide

/-- C2 amended: in every iteration the sweep (which absorbs per-record
unfollow failures) completes first and control always proceeds past it,
regardless of the sweep's outcome; the suggestion-fetch phase is then
reached exactly in the iterations that begin with
`follow_count < DAILY_FOLLOW_LIMIT`. -/
theorem sweep_always_proceeds (s : DriverState) (e : Env) :
    (iteration_body s e).2.head? = some Phase.sweeping ∧
    (Phase.fetching ∈ (iteration_body s e).2 ↔
      s.follow_count < DAILY_FOLLOW_LIMIT) := by
  simp only [iteration_body]
  split
  · rename_i hlt
    split
    · exact ⟨rfl, by simp_all⟩
    · split
      · exact ⟨rfl, by simp_all⟩
      · split <;> exact ⟨rfl, by simp_all⟩
  · rename_i hge
    split
    · exact ⟨rfl, by simp_all⟩
    · exact ⟨rfl, by simp_all⟩

/-- C8: every exception escaping any point of one follow-cycle iteration is
caught at the driver level and followed by a fixed 300-second pause, and the
loop then proceeds to the next iteration from the mutated state — the loop
never terminates due to an exception. -/
theorem driver_catches_all (s : DriverState) (e : Env) (s' : DriverState)
    (hexn : (iteration_body s e).1 = .exn s') :
    follow_cycle_step s e = (s', some 300) ∧
    (∀ (envs : Nat → Env) (n : Nat),
      follow_cycle_run s envs (n + 1)
        = (follow_cycle_step (follow_cycle_run s envs n) (envs n)).1) := by
  constructor
  · rw [follow_cycle_step, hexn]
  · intro envs n; rfl

theorem driver_catches_all_witness :
    (iteration_body ⟨20, 0, []⟩ (envAt 90000)).1 = .exn ⟨20, 0, []⟩ ∧
    follow_cycle_step ⟨20, 0, []⟩ (envAt 90000) = (⟨20, 0, []⟩, some 300) :=
  ⟨by decide, (driver_catches_all ⟨20, 0, []⟩ (envAt 90000) ⟨20, 0, []⟩ (by decide)).1⟩

/-- C9: in the quota-exhausted branch the counters are reset only when the
computed remaining duration `cycleStart + 24h - now` is non-negative (so the
sleep completes); when the quota is reached more than 24 hours after the
cycle started, the remaining duration is negative, `time.sleep` raises, and
the reset of `follow_count` and `start_time` is skipped in that iteration. -/
theorem quota_overdue_skips_reset (s : DriverState) (e : Env)
    (hq : DAILY_FOLLOW_LIMIT ≤ s.follow_count) :
    ((s.start_time : Int) + 86400 - (e.now : Int) < 0 →
      (iteration_body s e).1
        = .exn { follow_count := s.follow_count, start_time := s.start_time,
                 db := check_unfollows s.db e.now (UNFOLLOW_AFTER_DAYS * 86400)
                         e.unfollowOk }) ∧
    (0 ≤ (s.start_time : Int) + 86400 - (e.now : Int) →
      (iteration_body s e).1
        = .ok { follow_count := 0, start_time := e.nowAfterQuotaSleep,
                db := check_unfollows s.db e.now (UNFOLLOW_AFTER_DAYS * 86400)
                        e.unfollowOk }) := by
  simp only [iteration_body]
  rw [if_neg (by simp; omega)]
  constructor
  · intro hneg
    rw [if_pos (by simpa using hneg)]
  · intro hpos
    rw [if_neg (by simp; omega)]

theorem quota_overdue_skips_reset_witness :
    DAILY_FOLLOW_LIMIT ≤ 20 ∧
    (iteration_body ⟨20, 0, []⟩ (envAt 90000)).1 = .exn ⟨20, 0, []⟩ :=
  ⟨by decide, by
    have := (quota_overdue_skips_reset ⟨20, 0, []⟩ (envAt 90000) (by decide)).1
      (by decide)
    simpa using this⟩

theorem quota_never_exceeded_witness :
    (0 ≤ DAILY_FOLLOW_LIMIT) ∧
    ((iteration_body ⟨0, 0, []⟩ (envAt 50000)).1.stateOf).follow_count
      ≤ DAILY_FOLLOW_LIMIT :=
  ⟨Nat.zero_le _, (quota_never_exceeded ⟨0, 0, []⟩ (envAt 50000) (Nat.zero_le _)).1⟩



theorem check_criteria_false_of_active (db : Ledger) (u : User)
    (h : isActive db u.did = true) : check_criteria db u = false := by
  cases hc : check_criteria db u
  · rfl
  · rw [check_criteria_iff] at hc
    rw [isActive, List.any_eq_true] at h
    obtain ⟨r, hr, hp⟩ := h
    simp only [Bool.and_eq_true, beq_iff_eq] at hp
    have := hc.2 r hr hp.1
    rw [this] at hp
    exact absurd hp.2 (by simp)

theorem isActive_append (db l : Ledger) (d : String)
    (h : isActive db d = true) : isActive (db ++ l) d = true := by
  rw [isActive] at h ⊢
  rw [List.any_append, h, Bool.true_or]

theorem processBatch_active_not_called (now : Nat) :
    ∀ (users : List User) (os : List (RemoteOutcome × RemoteOutcome))
      (db : Ledger) (c : Nat) (d : String), isActive db d = true →
      d ∉ (processBatch now users os db c).callsOf
  | [], os, db, c, d, h => by simp [processBatch, BatchResult.callsOf]
  | u :: rest, os, db, c, d, h => by
    rw [processBatch]
    by_cases hcc : check_criteria db u = true
    · have hne : u.did ≠ d := by
        intro hd
        rw [check_criteria_false_of_active db u (hd ▸ h)] at hcc
        exact absurd hcc (by simp)
      rw [if_pos hcc]
      rcases follow_user_db_cases db u now
          (os.headD (.otherError, .otherError)).1
          (os.headD (.otherError, .otherError)).2 with hf | hf | hf <;>
        simp only [hf]
      · by_cases hl : DAILY_FOLLOW_LIMIT ≤ c + 1
        · rw [if_pos hl]
          simp only [BatchResult.callsOf, List.mem_singleton]
          exact fun hd => hne hd.symm
        · rw [if_neg hl]
          rw [mem_addCall_callsOf]
          rintro (hd | hmem)
          · exact hne hd.symm
          · exact processBatch_active_not_called now rest os.tail _ (c + 1) d
              (isActive_append db _ d h) hmem
      · by_cases hl : DAILY_FOLLOW_LIMIT ≤ c
        · rw [if_pos hl]
          simp only [BatchResult.callsOf, List.mem_singleton]
          exact fun hd => hne hd.symm
        · rw [if_neg hl]
          rw [mem_addCall_callsOf]
          rintro (hd | hmem)
          · exact hne hd.symm
          · exact processBatch_active_not_called now rest os.tail db c d h hmem
      · simp only [BatchResult.callsOf, List.mem_singleton]
        exact fun hd => hne hd.symm
    · rw [if_neg hcc]
      exact processBatch_active_not_called now rest os db c d h

/-- C3 counterexample: a record marked unfollowed is NOT a permanent
negative cache: with a ledger whose only record for `did:plc:alice` has
`unfollowed = true`, the filter accepts the account again and the batch loop
issues another remote follow call for it (its did appears in the issued-call
list), refuting "the agent never again issues a remote follow call for that
accountId". -/
theorem unfollowed_record_refollow_counterexample :
    dbAlice.all (fun r => r.unfollowed) = true ∧
    check_criteria dbAlice uAlice = true ∧
    processBatch 100 [uAlice] [(.success, .success)] dbAlice 0
      = .completed dbAlice 0 [uAlice.did] := by
  exact ⟨by decide, by decide, by decide⟩

/-- C3 amended: re-follow is blocked only while an active
(`unfollowed = false`) record exists: whenever the ledger holds an active
record for an accountId, the filter rejects every candidate with that did
and the batch loop never issues a remote follow call for it; once the
record is marked unfollowed this protection ends (see the counterexample). -/
theorem active_record_blocks_refollow (now : Nat) (users : List User)
    (os : List (RemoteOutcome × RemoteOutcome)) (db : Ledger) (c : Nat)
    (d : String) (h : isActive db d = true) :
    (∀ u : User, u.did = d → check_criteria db u = false) ∧
    d ∉ (processBatch now users os db c).callsOf :=
  ⟨fun u hu => check_criteria_false_of_active db u (hu ▸ h),
   processBatch_active_not_called now users os db c d h⟩

theorem active_record_blocks_refollow_witness :
    isActive [{ did := "d3", handle := "x.bsky", followedAt := 0, unfollowed := false }]
      "d3" = true ∧
    "d3" ∉ (processBatch 50 [{ did := "d3", handle := "x.bsky" }] [(.success, .success)]
      [{ did := "d3", handle := "x.bsky", followedAt := 0, unfollowed := false }]
      0).callsOf :=
  ⟨by decide,
   (active_record_blocks_refollow 50 [{ did := "d3", handle := "x.bsky" }]
      [(.success, .success)]
      [{ did := "d3", handle := "x.bsky", followedAt := 0, unfollowed := false }]
      0 "d3" (by decide)).2⟩
